import Mathlib

/-!
Verification of the session/state core of the chrome-reader-mcp repository.

The definitions below are a shallow embedding of `McpContext` (pages,
selection, dialog capture, text snapshots, uid resolution) and
`McpResponse` (response assembly).  Collaborator behaviour (the browser
driver: page enumeration, accessibility-tree extraction, element-handle
resolution, the file system) is passed in as explicit arguments, exactly
at the points where the source awaits a collaborator call.
-/

namespace ChromeReaderMcp

/-- One collaborator-provided accessibility-tree entry (`SerializedAXNode`):
role, optional accessible name, optional value, and child entries. -/
inductive AXNode where
  | mk (role : String) (name : Option String) (value : Option String)
      (children : List AXNode)

def AXNode.role : AXNode → String
  | .mk r _ _ _ => r

def AXNode.name : AXNode → Option String
  | .mk _ n _ _ => n

def AXNode.value : AXNode → Option String
  | .mk _ _ v _ => v

def AXNode.children : AXNode → List AXNode
  | .mk _ _ _ cs => cs

/-- A snapshot node (`TextSnapshotNode`): an accessibility entry stamped
with its `id` (the uid string `<snapshotId>_<sequence>`). -/
inductive TextSnapshotNode where
  | mk (id : String) (role : String) (name : Option String)
      (value : Option String) (children : List TextSnapshotNode)

def TextSnapshotNode.id : TextSnapshotNode → String
  | .mk i _ _ _ _ => i

def TextSnapshotNode.role : TextSnapshotNode → String
  | .mk _ r _ _ _ => r

def TextSnapshotNode.name : TextSnapshotNode → Option String
  | .mk _ _ n _ _ => n

def TextSnapshotNode.value : TextSnapshotNode → Option String
  | .mk _ _ _ v _ => v

def TextSnapshotNode.children : TextSnapshotNode → List TextSnapshotNode
  | .mk _ _ _ _ cs => cs

/-- Uid string built by `createTextSnapshot`:
the template literal `${snapshotId}_${idCounter}`. -/
def uidString (snapshotId seq : Nat) : String :=
  Nat.repr snapshotId ++ "_" ++ Nat.repr seq

mutual
/-- `assignIds` from `McpContext.createTextSnapshot`: stamps the node with
`${snapshotId}_${idCounter++}` (the counter is consumed before the
children are mapped, i.e. depth-first pre-order), recursively stamps the
children left to right, and — when the role is `"option"` and the
accessible name is truthy (present and non-empty) — overwrites the value
with that name. -/
def assignIds (snapshotId : Nat) : AXNode → Nat → TextSnapshotNode × Nat
  | .mk role name value children, c =>
    let uid := uidString snapshotId c
    let rec1 := assignIdsList snapshotId children (c + 1)
    let value1 :=
      if role = "option" then
        match name with
        | some s => if s ≠ "" then some s else value
        | none => value
      else value
    (.mk uid role name value1 rec1.1, rec1.2)

def assignIdsList (snapshotId : Nat) :
    List AXNode → Nat → List TextSnapshotNode × Nat
  | [], c => ([], c)
  | n :: ns, c =>
    let rec1 := assignIds snapshotId n c
    let rec2 := assignIdsList snapshotId ns rec1.2
    (rec1.1 :: rec2.1, rec2.2)
end

mutual
/-- The entries inserted into `idToNode` by `assignIds`, in insertion
order (a node is inserted after its children). -/
def collectNodes : TextSnapshotNode → List (String × TextSnapshotNode)
  | .mk i r n v cs =>
    collectNodesList cs ++ [(i, .mk i r n v cs)]

def collectNodesList : List TextSnapshotNode → List (String × TextSnapshotNode)
  | [] => []
  | t :: ts => collectNodes t ++ collectNodesList ts
end

mutual
/-- Number of nodes of an accessibility tree. -/
def AXNode.size : AXNode → Nat
  | .mk _ _ _ cs => 1 + AXNode.sizeList cs

def AXNode.sizeList : List AXNode → Nat
  | [] => 0
  | n :: ns => AXNode.size n + AXNode.sizeList ns
end

mutual
/-- Depth-first pre-order listing of the uids of a snapshot tree. -/
def TextSnapshotNode.preorderIds : TextSnapshotNode → List String
  | .mk i _ _ _ cs => i :: TextSnapshotNode.preorderIdsList cs

def TextSnapshotNode.preorderIdsList : List TextSnapshotNode → List String
  | [] => []
  | t :: ts => TextSnapshotNode.preorderIds t ++ TextSnapshotNode.preorderIdsList ts
end

mutual
/-- Depth-first pre-order listing of (role, name, value) of a snapshot tree. -/
def TextSnapshotNode.preorderMeta :
    TextSnapshotNode → List (String × Option String × Option String)
  | .mk _ r n v cs => (r, n, v) :: TextSnapshotNode.preorderMetaList cs

def TextSnapshotNode.preorderMetaList :
    List TextSnapshotNode → List (String × Option String × Option String)
  | [] => []
  | t :: ts =>
    TextSnapshotNode.preorderMeta t ++ TextSnapshotNode.preorderMetaList ts
end

mutual
/-- Depth-first pre-order listing of the nodes of an accessibility tree. -/
def AXNode.preorder : AXNode → List AXNode
  | .mk r n v cs => .mk r n v cs :: AXNode.preorderList cs

def AXNode.preorderList : List AXNode → List AXNode
  | [] => []
  | n :: ns => AXNode.preorder n ++ AXNode.preorderList ns
end

/-- The immutable `TextSnapshot` record. -/
structure TextSnapshot where
  root : TextSnapshotNode
  idToNode : List (String × TextSnapshotNode)
  snapshotId : String
  selectedElementUid : Option String
  hasSelectedElement : Bool
  verbose : Bool

/-- A page handle as the registry sees it: its identity `key` (object
identity of the collaborator handle) and its current URL. -/
structure PageInfo where
  key : Nat
  url : String
deriving DecidableEq, Repr

/-- A pending modal dialog: its type, message and default value. -/
structure DialogInfo where
  dtype : String
  message : String
  defaultValue : String
deriving DecidableEq, Repr

/-- `McpContextOptions`. -/
structure McpContextOptions where
  experimentalDevToolsDebugging : Bool
  experimentalIncludeAllPages : Bool
deriving DecidableEq, Repr

/-- The mutable state of one `McpContext`: the visible page list, the
selected page, the page-id side table with its monotonic counter, the
set of pages carrying the dialog listener, the pending dialog, the
current text snapshot and the snapshot-id counter. -/
structure McpState where
  options : McpContextOptions
  pages : List PageInfo
  selected : Option Nat
  pageIdMap : List (Nat × Nat)
  nextPageId : Nat
  listeners : List Nat
  dialog : Option DialogInfo
  textSnapshot : Option TextSnapshot
  nextSnapshotId : Nat

/-- `CLOSE_PAGE_ERROR` from `tools/ToolDefinition.ts`. -/
def CLOSE_PAGE_ERROR : String :=
  "The last open page cannot be closed. It is fine to keep it open."

/-- `McpContext.getSelectedPage`: throws when nothing is selected or the
selected page has been closed (`closed` is the collaborator's
`Page.isClosed`). -/
def getSelectedPageKey (st : McpState) (closed : Nat → Bool) :
    Except String Nat :=
  match st.selected with
  | none => .error "No page selected"
  | some k =>
    if closed k then
      .error "The selected page has been closed. Call list_pages to see open pages."
    else .ok k

/-- `McpContext.selectPage`: detaches the dialog handler from the
previously selected page, records the new selection and attaches the
handler to it.  (Timeout defaults and the fire-and-forget focus-emulation
toggles carry no registry state and are omitted.) -/
def selectPage (st : McpState) (newKey : Nat) : McpState :=
  let ls :=
    match st.selected with
    | some oldKey => st.listeners.erase oldKey
    | none => st.listeners
  { st with selected := some newKey, listeners := ls ++ [newKey] }

/-- The for-loop of `createPagesSnapshot` that gives a fresh id from the
monotonic counter to every page not yet in the side table. -/
def assignPageIds : List PageInfo → List (Nat × Nat) → Nat → List (Nat × Nat) × Nat
  | [], m, next => (m, next)
  | p :: ps, m, next =>
    if (m.lookup p.key).isSome then assignPageIds ps m next
    else assignPageIds ps (m ++ [(p.key, next)]) (next + 1)

/-- JS `String.prototype.startsWith` on the underlying character
sequences (first argument: the string, second: the candidate head). -/
def charsStartWith : List Char → List Char → Bool
  | _, [] => true
  | [], _ :: _ => false
  | c :: cs, d :: ds => c == d && charsStartWith cs ds

/-- The visibility filter of `createPagesSnapshot`: internal
`devtools://` pages are dropped unless DevTools debugging is enabled
(`page.url().startsWith('devtools://')`). -/
def pageVisible (opts : McpContextOptions) (p : PageInfo) : Bool :=
  opts.experimentalDevToolsDebugging
    || !(charsStartWith p.url.data "devtools://".data)

/-- `McpContext.createPagesSnapshot`: re-enumerates pages (`allPages` is
the collaborator's answer), assigns fresh ids to newly seen pages,
applies the visibility filter, and — when nothing is selected or the
selected page is not in the new visible list — selects the first visible
page, if any. -/
def createPagesSnapshot (st : McpState) (allPages : List PageInfo) : McpState :=
  let assigned := assignPageIds allPages st.pageIdMap st.nextPageId
  let visible := allPages.filter (pageVisible st.options)
  let st1 := { st with
    pageIdMap := assigned.1, nextPageId := assigned.2, pages := visible }
  let selectedVisible :=
    match st1.selected with
    | none => false
    | some k => st1.pages.any (fun p => p.key = k)
  match st1.pages.head? with
  | some p0 => if !selectedVisible then selectPage st1 p0.key else st1
  | none => st1

/-- The keys of the enumerated pages not yet in the side table, in
discovery order: the pages that `createPagesSnapshot` maps afresh. -/
def newPageKeys (ps : List PageInfo) (m : List (Nat × Nat)) : List Nat :=
  (ps.filter (fun p => (m.lookup p.key).isNone)).map PageInfo.key

/-- The close request `page.close({runBeforeUnload: false})` issued by
`closePage`. -/
structure CloseRequest where
  pageKey : Nat
  runBeforeUnload : Bool
deriving DecidableEq, Repr

/-- `McpContext.closePage`: refuses to close the last visible page,
resolves the page by id through the side table (first match wins, as in
`Array.prototype.find`), and issues a close request with unload hooks
disabled. -/
def closePage (st : McpState) (pageId : Nat) : Except String CloseRequest :=
  if st.pages.length = 1 then .error CLOSE_PAGE_ERROR
  else
    match st.pages.find? (fun p => st.pageIdMap.lookup p.key = some pageId) with
    | none => .error "No page found"
    | some p => .ok ⟨p.key, false⟩

/-- `McpContext.createTextSnapshot`: requires a selected page, asks the
collaborator for the accessibility tree (`rootNode` is its answer; the
request always includes iframes and filters to interesting nodes iff not
verbose), returns unchanged on a null tree, and otherwise builds the new
snapshot from a freshly incremented snapshot id. -/
def createTextSnapshot (st : McpState) (closed : Nat → Bool)
    (rootNode : Option AXNode) (verbose : Bool) : Except String McpState :=
  match getSelectedPageKey st closed with
  | .error e => .error e
  | .ok _ =>
    match rootNode with
    | none => .ok st
    | some root =>
      let snapshotId := st.nextSnapshotId
      let rootWithId := (assignIds snapshotId root 0).1
      .ok { st with
        nextSnapshotId := st.nextSnapshotId + 1,
        textSnapshot := some {
          root := rootWithId,
          idToNode := collectNodes rootWithId,
          snapshotId := Nat.repr snapshotId,
          selectedElementUid := none,
          hasSelectedElement := false,
          verbose := verbose } }

/-- `uid.split(sep)[0]` for a one-character separator: the longest run of
characters before the first `_`; the whole string when it has no `_`. -/
def firstUidComponent (uid : String) : String :=
  String.mk (uid.data.takeWhile (fun c => c != '_'))

/-- The error strings of `getElementByUid`. -/
def NO_SNAPSHOT_ERROR : String :=
  "No snapshot found. Use take_snapshot to capture one."

def STALE_SNAPSHOT_ERROR : String :=
  "This uid is coming from a stale snapshot. Call take_snapshot to get a fresh snapshot."

def NOT_FOUND_ERROR : String :=
  "No such element found in the snapshot"

/-- `McpContext.getElementByUid`: no-snapshot guard (`!snapshot?.idToNode.size`),
staleness check on the uid's text before the first `_` against the current
snapshot id by string equality, map lookup, and live-element resolution
(`elementHandle` is the collaborator's `node.elementHandle()`; a `none`
answer means the node has detached since capture). -/
def getElementByUid (st : McpState)
    (elementHandle : TextSnapshotNode → Option Nat) (uid : String) :
    Except String Nat :=
  match st.textSnapshot with
  | none => .error NO_SNAPSHOT_ERROR
  | some ts =>
    if ts.idToNode.isEmpty then .error NO_SNAPSHOT_ERROR
    else
      let snapshotId := firstUidComponent uid
      if ts.snapshotId ≠ snapshotId then .error STALE_SNAPSHOT_ERROR
      else
        match ts.idToNode.lookup uid with
        | none => .error NOT_FOUND_ERROR
        | some node =>
          match elementHandle node with
          | none => .error NOT_FOUND_ERROR
          | some h => .ok h

/-! ### McpResponse -/

/-- One MCP content block of the returned list. -/
inductive ContentBlock where
  | text (text : String)
  | image (data : String) (mimeType : String)
deriving DecidableEq, Repr

/-- `ImageContentData`. -/
structure ImageContentData where
  data : String
  mimeType : String
deriving DecidableEq, Repr

/-- `SnapshotParams`: both fields are optional in the source schema. -/
structure SnapshotParams where
  verbose : Option Bool
  filePath : Option String
deriving DecidableEq, Repr

/-- The accumulated state of one `McpResponse`. -/
structure McpResponseState where
  includePages : Bool
  snapshotParams : Option SnapshotParams
  textResponseLines : List String
  images : List ImageContentData
deriving DecidableEq, Repr

/-- The dialog notice block pushed by `McpResponse.format` when a dialog
is pending (one string containing newlines; `handleDialog.name` is the
tool name `handle_dialog`). -/
def dialogNotice (dialog : DialogInfo) : String :=
  let defaultValueIfNeeded :=
    if dialog.dtype = "prompt" then
      " (default value: \"" ++ dialog.defaultValue ++ "\")"
    else ""
  "# Open dialog\n" ++ dialog.dtype ++ ": " ++ dialog.message
    ++ defaultValueIfNeeded
    ++ ".\nCall handle_dialog to handle it before continuing."

/-- One line of the pages section: `id: url`, with ` [selected]` appended
for the selected page (`undefined` is what the template literal prints
for a page missing from the side table). -/
def pageLine (st : McpState) (p : PageInfo) : String :=
  (match st.pageIdMap.lookup p.key with
   | some i => Nat.repr i
   | none => "undefined")
    ++ ": " ++ p.url
    ++ (if st.selected = some p.key then " [selected]" else "")

/-- `McpResponse.format`: builds the response line array by successive
pushes — header, accumulated lines, dialog notice, pages section,
snapshot section — joins it with newlines into one text block, and
returns it followed by the attached images.  The snapshot section is
emitted when `data.formattedSnapshot` is truthy (present and non-empty). -/
def format (toolName : String) (resp : McpResponseState) (st : McpState)
    (formattedSnapshot : Option String) : List ContentBlock :=
  let response := ["# " ++ toolName ++ " response"]
  let response := response ++ resp.textResponseLines
  let response :=
    match st.dialog with
    | some dialog => response ++ [dialogNotice dialog]
    | none => response
  let response :=
    if resp.includePages then
      response ++ (["## Pages"] ++ st.pages.map (pageLine st))
    else response
  let response :=
    match formattedSnapshot with
    | some s =>
      if s ≠ "" then response ++ ["## Latest page snapshot", s] else response
    | none => response
  ContentBlock.text (String.intercalate "\n" response)
    :: resp.images.map (fun i => ContentBlock.image i.data i.mimeType)

/-- An error carrying an optional wrapped cause
(`new Error(message, {cause})`). -/
structure McpError where
  message : String
  cause : Option String
deriving DecidableEq, Repr

/-- `McpContext.saveFile`: writes the data to the resolved path
(`writeFile` is the file system collaborator) and wraps any failure in a
user-facing error carrying the cause. -/
def saveFile (writeFile : String → String → Except String Unit)
    (data filename : String) : Except McpError String :=
  match writeFile filename data with
  | .error err => .error ⟨"Could not save a screenshot to a file", some err⟩
  | .ok _ => .ok filename

/-- `McpResponse.handle`: refreshes the page list when pages were
requested, performs the snapshot capture when a snapshot was requested
(`rootNode` is the collaborator's accessibility tree, `render` is
`formatSnapshotNode`), writes the rendered text to the requested file
path — substituting a path-reference line for the inline text — and
formats the final content blocks. -/
def handle (toolName : String) (resp : McpResponseState) (st : McpState)
    (allPages : List PageInfo) (closed : Nat → Bool) (rootNode : Option AXNode)
    (render : TextSnapshotNode → TextSnapshot → String)
    (writeFile : String → String → Except String Unit) :
    Except McpError (List ContentBlock × McpState) :=
  let st1 := if resp.includePages then createPagesSnapshot st allPages else st
  match resp.snapshotParams with
  | none => .ok (format toolName resp st1 none, st1)
  | some params =>
    match createTextSnapshot st1 closed rootNode (params.verbose.getD false) with
    | .error e => .error ⟨e, none⟩
    | .ok st2 =>
      match st2.textSnapshot with
      | none => .ok (format toolName resp st2 none, st2)
      | some snapshot =>
        match params.filePath with
        | some fp =>
          match saveFile writeFile (render snapshot.root snapshot) fp with
          | .error e => .error e
          | .ok _ =>
            .ok (format toolName resp st2
                  (some ("Saved snapshot to " ++ fp ++ ".")), st2)
        | none =>
          .ok (format toolName resp st2
                (some (render snapshot.root snapshot)), st2)

/-! ### Helper definitions for the proofs -/

/-- Numeric value of a decimal digit character. -/
def digitVal (c : Char) : Nat := c.toNat - 48

/-- Value of a big-endian decimal digit string. -/
def digitsVal : List Char → Nat
  | [] => 0
  | c :: cs => digitVal c * 10 ^ cs.length + digitsVal cs

/-- The spec's value rule for one captured node, stated from the spec
sentence: the value of a node with role `"option"` and a present
(non-empty) accessible name is that name; every other node keeps its
original value.  Comparator for the source's `assignIds`. -/
def optionRuleValue (n : AXNode) : Option String :=
  match n.name with
  | some s => if n.role = "option" && s != "" then some s else n.value
  | none => n.value

/-- The spec's description of the composed response text, stated as flat
concatenation of the sections in the order the spec lists them: header,
accumulated lines, dialog notice, pages section, snapshot section.
Comparator for the source's `format`. -/
def specSections (toolName : String) (resp : McpResponseState) (st : McpState)
    (formattedSnapshot : Option String) : List String :=
  ["# " ++ toolName ++ " response"]
    ++ resp.textResponseLines
    ++ (match st.dialog with
        | some d => [dialogNotice d]
        | none => [])
    ++ (if resp.includePages then "## Pages" :: st.pages.map (pageLine st) else [])
    ++ (match formattedSnapshot with
        | some s => if s ≠ "" then ["## Latest page snapshot", s] else []
        | none => [])

/-! ### Concrete fixtures used by witnesses and counterexamples -/

/-- A small accessibility tree: a root with a button and an option child. -/
def sampleRoot : AXNode :=
  .mk "RootWebArea" (some "t") none
    [.mk "button" (some "Click me") none [],
     .mk "option" (some "Foo") (some "old") []]

/-- A session state with one visible page selected and no snapshot yet. -/
def sampleState : McpState where
  options := ⟨false, false⟩
  pages := [⟨1, "about:blank"⟩]
  selected := some 1
  pageIdMap := [(1, 1)]
  nextPageId := 2
  listeners := [1]
  dialog := none
  textSnapshot := none
  nextSnapshotId := 1

/-- The single node of `sampleSnapshot`, uid `1_0`. -/
def sampleNode : TextSnapshotNode := .mk "1_0" "RootWebArea" (some "t") none []

/-- A one-node snapshot whose single uid is `1_0`. -/
def sampleSnapshot : TextSnapshot where
  root := sampleNode
  idToNode := [("1_0", sampleNode)]
  snapshotId := "1"
  selectedElementUid := none
  hasSelectedElement := false
  verbose := false

/-- `sampleState` after capturing `sampleSnapshot`. -/
def sampleSnapState : McpState :=
  { sampleState with textSnapshot := some sampleSnapshot, nextSnapshotId := 2 }

/-- The snapshot of the first capture of `sampleRoot` (snapshot id 1). -/
def sampleCapturedSnapshot : TextSnapshot where
  root := (assignIds 1 sampleRoot 0).1
  idToNode := collectNodes (assignIds 1 sampleRoot 0).1
  snapshotId := Nat.repr 1
  selectedElementUid := none
  hasSelectedElement := false
  verbose := false

/-- `sampleState` after a first capture of `sampleRoot`. -/
def sampleCaptured : McpState :=
  { sampleState with
    nextSnapshotId := 2,
    textSnapshot := some sampleCapturedSnapshot }

/-- A response that requested a snapshot written to a file path. -/
def fileResp : McpResponseState where
  includePages := false
  snapshotParams := some { verbose := some false, filePath := some "/tmp/out.txt" }
  textResponseLines := []
  images := []

/-- A session state with two visible pages. -/
def twoPageState : McpState where
  options := ⟨false, false⟩
  pages := [⟨1, "about:blank"⟩, ⟨2, "https://example.com"⟩]
  selected := some 1
  pageIdMap := [(1, 1), (2, 2)]
  nextPageId := 3
  listeners := [1]
  dialog := none
  textSnapshot := none
  nextSnapshotId := 1

/-! ### Decimal rendering facts

`Nat.repr` (what the source's template literals and `String(x)` compile
to) is injective and produces only digit characters. -/

theorem digitVal_digitChar : ∀ k, k < 10 → digitVal (Nat.digitChar k) = k := by
  decide

theorem digitChar_ne_underscore : ∀ k, k < 10 → Nat.digitChar k ≠ '_' := by
  decide

theorem toDigitsCore_append (fuel : Nat) :
    ∀ (n : Nat) (ds : List Char),
      Nat.toDigitsCore 10 fuel n ds = Nat.toDigitsCore 10 fuel n [] ++ ds := by
  induction fuel with
  | zero => intro n ds; simp [Nat.toDigitsCore]
  | succ fuel ih =>
    intro n ds
    simp only [Nat.toDigitsCore]
    by_cases h : n / 10 = 0
    · simp [h]
    · simp only [h, if_neg, if_false]
      rw [ih (n / 10) (Nat.digitChar (n % 10) :: ds),
        ih (n / 10) [Nat.digitChar (n % 10)]]
      simp

theorem digitsVal_append_singleton (xs : List Char) (c : Char) :
    digitsVal (xs ++ [c]) = 10 * digitsVal xs + digitVal c := by
  induction xs with
  | nil => simp [digitsVal]
  | cons x xs ih =>
    show digitVal x * 10 ^ (xs ++ [c]).length + digitsVal (xs ++ [c])
        = 10 * (digitVal x * 10 ^ xs.length + digitsVal xs) + digitVal c
    rw [ih]
    have hl : (xs ++ [c]).length = xs.length + 1 := by simp
    rw [hl, pow_succ]
    ring

theorem digitsVal_toDigitsCore (fuel : Nat) :
    ∀ n, n < fuel → digitsVal (Nat.toDigitsCore 10 fuel n []) = n := by
  induction fuel with
  | zero => intro n h; omega
  | succ fuel ih =>
    intro n h
    simp only [Nat.toDigitsCore]
    by_cases h10 : n / 10 = 0
    · simp only [h10, if_pos]
      simp only [digitsVal, pow_zero, mul_one, Nat.add_zero,
        List.length_nil]
      rw [digitVal_digitChar (n % 10) (by omega)]
      omega
    · simp only [h10, if_neg, if_false]
      rw [toDigitsCore_append, digitsVal_append_singleton]
      rw [ih (n / 10) (by omega), digitVal_digitChar (n % 10) (by omega)]
      omega

theorem natRepr_injective : Function.Injective Nat.repr := by
  intro m n h
  have h2 : Nat.toDigitsCore 10 (m + 1) m [] = Nat.toDigitsCore 10 (n + 1) n [] :=
    congrArg String.data h
  have hm := digitsVal_toDigitsCore (m + 1) m (by omega)
  have hn := digitsVal_toDigitsCore (n + 1) n (by omega)
  rw [h2, hn] at hm
  exact hm.symm

theorem toDigitsCore_ne_underscore (fuel : Nat) :
    ∀ n ds, (∀ c ∈ ds, c ≠ '_') →
      ∀ c ∈ Nat.toDigitsCore 10 fuel n ds, c ≠ '_' := by
  induction fuel with
  | zero => intro n ds hds; simpa [Nat.toDigitsCore] using hds
  | succ fuel ih =>
    intro n ds hds
    simp only [Nat.toDigitsCore]
    by_cases h10 : n / 10 = 0
    · simp only [h10, if_pos]
      intro c hc
      rcases List.mem_cons.mp hc with rfl | hc
      · exact digitChar_ne_underscore (n % 10) (by omega)
      · exact hds c hc
    · simp only [h10, if_neg, if_false]
      refine ih (n / 10) _ ?_
      intro c hc
      rcases List.mem_cons.mp hc with rfl | hc
      · exact digitChar_ne_underscore (n % 10) (by omega)
      · exact hds c hc

theorem natRepr_no_underscore (n : Nat) : ∀ c ∈ (Nat.repr n).data, c ≠ '_' := by
  have hd : (Nat.repr n).data = Nat.toDigitsCore 10 (n + 1) n [] := rfl
  rw [hd]
  exact toDigitsCore_ne_underscore (n + 1) n [] (by simp)

/-! ### Uid string facts -/

theorem string_data_append (a b : String) : (a ++ b).data = a.data ++ b.data :=
  rfl

theorem uidString_data (sid seq : Nat) :
    (uidString sid seq).data
      = (Nat.repr sid).data ++ ('_' :: (Nat.repr seq).data) := by
  show ((Nat.repr sid ++ "_") ++ Nat.repr seq).data = _
  rw [string_data_append, string_data_append]
  simp

theorem takeWhile_all {p : Char → Bool} :
    ∀ (l : List Char), (∀ a ∈ l, p a = true) → l.takeWhile p = l := by
  intro l hl
  induction l with
  | nil => rfl
  | cons a as ih =>
    rw [List.takeWhile_cons_of_pos (hl a (List.mem_cons_self a as))]
    rw [ih (fun a ha => hl a (List.mem_cons_of_mem _ ha))]

theorem takeWhile_append_stop {p : Char → Bool} :
    ∀ (A : List Char), (∀ a ∈ A, p a = true) →
    ∀ (x : Char) (B : List Char), p x = false →
      (A ++ x :: B).takeWhile p = A := by
  intro A hA x B hx
  induction A with
  | nil => simp [List.takeWhile_cons, hx]
  | cons a as ih =>
    rw [List.cons_append,
      List.takeWhile_cons_of_pos (hA a (List.mem_cons_self a as))]
    rw [ih (fun a ha => hA a (List.mem_cons_of_mem _ ha))]

theorem firstUidComponent_uidString (sid seq : Nat) :
    firstUidComponent (uidString sid seq) = Nat.repr sid := by
  unfold firstUidComponent
  rw [uidString_data]
  have hall : ∀ a ∈ (Nat.repr sid).data, (a != '_') = true := by
    intro a ha
    simpa using natRepr_no_underscore sid a ha
  rw [takeWhile_append_stop _ hall '_' _ (by decide)]

theorem uidString_seq_injective (sid : Nat) :
    ∀ i j, uidString sid i = uidString sid j → i = j := by
  intro i j h
  have hd := congrArg String.data h
  rw [uidString_data, uidString_data] at hd
  have h2 := List.append_cancel_left hd
  have h3 : (Nat.repr i).data = (Nat.repr j).data := by
    exact List.tail_eq_of_cons_eq h2
  exact natRepr_injective (congrArg String.mk h3)

theorem firstUidComponent_no_underscore (uid : String)
    (h : ∀ c ∈ uid.data, c ≠ '_') : firstUidComponent uid = uid := by
  unfold firstUidComponent
  rw [takeWhile_all _ (fun a ha => by simpa using h a ha)]

/-! ### assignIds structure: counter threading and uid sequence -/

mutual
theorem assignIds_spec (sid : Nat) (n : AXNode) (c : Nat) :
    (assignIds sid n c).2 = c + AXNode.size n ∧
    TextSnapshotNode.preorderIds (assignIds sid n c).1
      = (List.range' c (AXNode.size n)).map (uidString sid) := by
  cases n with
  | mk role name value children =>
    have h := assignIdsList_spec sid children (c + 1)
    simp only [assignIds, AXNode.size, TextSnapshotNode.preorderIds]
    refine ⟨by rw [h.1]; omega, ?_⟩
    rw [h.2, Nat.add_comm 1 (AXNode.sizeList children), List.range'_succ]
    simp

theorem assignIdsList_spec (sid : Nat) (ns : List AXNode) (c : Nat) :
    (assignIdsList sid ns c).2 = c + AXNode.sizeList ns ∧
    TextSnapshotNode.preorderIdsList (assignIdsList sid ns c).1
      = (List.range' c (AXNode.sizeList ns)).map (uidString sid) := by
  cases ns with
  | nil => simp [assignIdsList, AXNode.sizeList, TextSnapshotNode.preorderIdsList]
  | cons n ns =>
    have h1 := assignIds_spec sid n c
    have h2 := assignIdsList_spec sid ns (assignIds sid n c).2
    simp only [assignIdsList, AXNode.sizeList, TextSnapshotNode.preorderIdsList]
    constructor
    · rw [h2.1, h1.1]; omega
    · rw [h2.2, h1.2, h1.1, ← List.map_append, List.range'_append_1,
        Nat.add_comm (AXNode.sizeList ns) (AXNode.size n)]
end

/-! ### assignIds metadata: role and name preserved, option value rule -/

theorem optionRuleValue_mk (role : String) (name value : Option String)
    (children : List AXNode) :
    optionRuleValue (.mk role name value children)
      = (if role = "option" then
          match name with
          | some s => if s ≠ "" then some s else value
          | none => value
        else value) := by
  unfold optionRuleValue
  simp only [AXNode.role, AXNode.name, AXNode.value]
  cases name with
  | none => by_cases h : role = "option" <;> simp [h]
  | some s =>
    by_cases hr : role = "option" <;> by_cases hs : s = "" <;> simp [hr, hs]

mutual
theorem assignIds_meta (sid : Nat) (n : AXNode) (c : Nat) :
    TextSnapshotNode.preorderMeta (assignIds sid n c).1
      = (AXNode.preorder n).map
          (fun m => (AXNode.role m, AXNode.name m, optionRuleValue m)) := by
  cases n with
  | mk role name value children =>
    have h := assignIdsList_meta sid children (c + 1)
    simp only [assignIds, AXNode.preorder, TextSnapshotNode.preorderMeta,
      List.map_cons, h, AXNode.role, AXNode.name, optionRuleValue_mk]

theorem assignIdsList_meta (sid : Nat) (ns : List AXNode) (c : Nat) :
    TextSnapshotNode.preorderMetaList (assignIdsList sid ns c).1
      = (AXNode.preorderList ns).map
          (fun m => (AXNode.role m, AXNode.name m, optionRuleValue m)) := by
  cases ns with
  | nil => simp [assignIdsList, AXNode.preorderList, TextSnapshotNode.preorderMetaList]
  | cons n ns =>
    have h1 := assignIds_meta sid n c
    have h2 := assignIdsList_meta sid ns (assignIds sid n c).2
    simp only [assignIdsList, AXNode.preorderList,
      TextSnapshotNode.preorderMetaList, List.map_append, h1, h2]
end

/-! ### createTextSnapshot unfolding -/

theorem createTextSnapshot_ok_some (st : McpState) (closed : Nat → Bool)
    (root : AXNode) (verbose : Bool) (st' : McpState)
    (h : createTextSnapshot st closed (some root) verbose = .ok st') :
    st' = { st with
      nextSnapshotId := st.nextSnapshotId + 1,
      textSnapshot := some {
        root := (assignIds st.nextSnapshotId root 0).1,
        idToNode := collectNodes (assignIds st.nextSnapshotId root 0).1,
        snapshotId := Nat.repr st.nextSnapshotId,
        selectedElementUid := none,
        hasSelectedElement := false,
        verbose := verbose } } := by
  unfold createTextSnapshot at h
  cases hk : getSelectedPageKey st closed with
  | error e => rw [hk] at h; exact absurd h (by simp)
  | ok k =>
    rw [hk] at h
    simp only [Except.ok.injEq] at h
    exact h.symm

/-- The uid list of a successful capture, together with its snapshot id. -/
theorem captured_preorderIds (st : McpState) (closed : Nat → Bool)
    (root : AXNode) (verbose : Bool) (st' : McpState) (ts : TextSnapshot)
    (h : createTextSnapshot st closed (some root) verbose = .ok st')
    (hts : st'.textSnapshot = some ts) :
    TextSnapshotNode.preorderIds ts.root
      = (List.range (AXNode.size root)).map (uidString st.nextSnapshotId)
    ∧ ts.snapshotId = Nat.repr st.nextSnapshotId := by
  have hst := createTextSnapshot_ok_some st closed root verbose st' h
  subst hst
  simp only [Option.some.injEq] at hts
  subst hts
  refine ⟨?_, rfl⟩
  have := (assignIds_spec st.nextSnapshotId root 0).2
  rw [List.range_eq_range']
  exact this

/-- C1: for every successful capture, the uids are assigned depth-first
pre-order with sequence numbers 0, 1, … (the uid list in pre-order is
exactly `<id>_0 … <id>_(size-1)`), they are pairwise distinct within the
capture, and the text of every uid before the first underscore is the
capture's snapshot id. -/
theorem capture_uid_invariants
    (st : McpState) (closed : Nat → Bool) (root : AXNode) (verbose : Bool)
    (st' : McpState) (ts : TextSnapshot)
    (h : createTextSnapshot st closed (some root) verbose = .ok st')
    (hts : st'.textSnapshot = some ts) :
    TextSnapshotNode.preorderIds ts.root
      = (List.range (AXNode.size root)).map (uidString st.nextSnapshotId)
    ∧ (TextSnapshotNode.preorderIds ts.root).Nodup
    ∧ (∀ u ∈ TextSnapshotNode.preorderIds ts.root,
        firstUidComponent u = ts.snapshotId) := by
  obtain ⟨hids, hsid⟩ := captured_preorderIds st closed root verbose st' ts h hts
  refine ⟨hids, ?_, ?_⟩
  · rw [hids]
    exact List.Nodup.map
      (fun i j hij => uidString_seq_injective st.nextSnapshotId i j hij)
      (List.nodup_range _)
  · intro u hu
    rw [hids] at hu
    obtain ⟨i, _, rfl⟩ := List.mem_map.mp hu
    rw [firstUidComponent_uidString, hsid]

/-- Witness for C1 at a concrete three-node capture. -/
theorem capture_uid_invariants_witness :
    (TextSnapshotNode.preorderIds sampleCapturedSnapshot.root).Nodup :=
  (capture_uid_invariants sampleState (fun _ => false) sampleRoot false
    sampleCaptured sampleCapturedSnapshot rfl rfl).2.1

/-- C5: when the collaborator returns no accessibility tree, the capture
returns without error and leaves the whole state — in particular the
prior snapshot and the snapshot-id counter — unchanged; when a tree is
returned, a successful capture advances the snapshot-id counter by
exactly one. -/
theorem createTextSnapshot_null_noop (st : McpState) (closed : Nat → Bool)
    (verbose : Bool) (k : Nat)
    (hsel : getSelectedPageKey st closed = .ok k) :
    createTextSnapshot st closed none verbose = .ok st
    ∧ (∀ root st', createTextSnapshot st closed (some root) verbose = .ok st' →
        st'.nextSnapshotId = st.nextSnapshotId + 1) := by
  constructor
  · unfold createTextSnapshot
    rw [hsel]
  · intro root st' h
    rw [createTextSnapshot_ok_some st closed root verbose st' h]

/-- Witness for C5: the null-tree no-op on the sample state. -/
theorem createTextSnapshot_null_noop_witness :
    createTextSnapshot sampleState (fun _ => false) none false
      = .ok sampleState :=
  (createTextSnapshot_null_noop sampleState (fun _ => false) false 1 rfl).1

/-- C6: every captured node with role `"option"` and a present
(non-empty) accessible name has its value overwritten with that name;
all other captured nodes (other roles, or option nodes without a name)
keep their original value.  Stated as: the pre-order metadata of the
capture equals the source tree's pre-order metadata with values mapped
through the spec's option rule. -/
theorem assignIds_option_value_rule (sid : Nat) (n : AXNode) (c : Nat) :
    TextSnapshotNode.preorderMeta (assignIds sid n c).1
      = (AXNode.preorder n).map
          (fun m => (AXNode.role m, AXNode.name m, optionRuleValue m)) :=
  assignIds_meta sid n c

/-! ### getElementByUid -/

/-- Every snapshot built by a successful capture has a nonempty
id-to-node map (the root is always inserted), so the no-snapshot guard
`!snapshot?.idToNode.size` only fires when no snapshot exists. -/
theorem captured_idToNode_ne_nil (st : McpState) (closed : Nat → Bool)
    (root : AXNode) (verbose : Bool) (st' : McpState) (ts : TextSnapshot)
    (h : createTextSnapshot st closed (some root) verbose = .ok st')
    (hts : st'.textSnapshot = some ts) : ts.idToNode ≠ [] := by
  have hst := createTextSnapshot_ok_some st closed root verbose st' h
  subst hst
  simp only [Option.some.injEq] at hts
  subst hts
  show collectNodes (assignIds st.nextSnapshotId root 0).1 ≠ []
  cases hn : (assignIds st.nextSnapshotId root 0).1 with
  | mk i r nm v cs =>
    rw [collectNodes]
    intro habs
    exact absurd (List.append_eq_nil.mp habs).2 (by simp)

theorem isEmpty_false_of_ne_nil {α : Type} {l : List α} (h : l ≠ []) :
    l.isEmpty = false := by
  cases l with
  | nil => exact absurd rfl h
  | cons a as => rfl

theorem getElementByUid_unfold_some (st : McpState)
    (eh : TextSnapshotNode → Option Nat) (uid : String) (ts : TextSnapshot)
    (hts : st.textSnapshot = some ts) (hne : ts.idToNode ≠ []) :
    getElementByUid st eh uid =
      (if ts.snapshotId ≠ firstUidComponent uid then
        .error STALE_SNAPSHOT_ERROR
       else
        match ts.idToNode.lookup uid with
        | none => .error NOT_FOUND_ERROR
        | some node =>
          match eh node with
          | none => .error NOT_FOUND_ERROR
          | some h => .ok h) := by
  unfold getElementByUid
  rw [hts]
  simp only [isEmpty_false_of_ne_nil hne, Bool.false_eq_true, if_false]

/-- C2: resolution of a uid fails with the no-snapshot error when no
snapshot has been captured; with a snapshot in place, a uid whose text
before the first underscore differs from the current snapshot id fails
with the stale-snapshot error; a matching uid that is absent from the
id-to-node map, or whose node no longer resolves to a live element,
fails with the not-found error; otherwise the resolved handle is
returned. -/
theorem getElementByUid_error_cases (st : McpState)
    (eh : TextSnapshotNode → Option Nat) (uid : String) :
    (st.textSnapshot = none →
      getElementByUid st eh uid = .error NO_SNAPSHOT_ERROR)
    ∧ (∀ ts, st.textSnapshot = some ts → ts.idToNode ≠ [] →
        (firstUidComponent uid ≠ ts.snapshotId →
          getElementByUid st eh uid = .error STALE_SNAPSHOT_ERROR)
        ∧ (firstUidComponent uid = ts.snapshotId →
            (ts.idToNode.lookup uid = none →
              getElementByUid st eh uid = .error NOT_FOUND_ERROR)
            ∧ (∀ node, ts.idToNode.lookup uid = some node →
                (eh node = none →
                  getElementByUid st eh uid = .error NOT_FOUND_ERROR)
                ∧ (∀ e, eh node = some e →
                    getElementByUid st eh uid = .ok e)))) := by
  refine ⟨?_, ?_⟩
  · intro h
    unfold getElementByUid
    rw [h]
  · intro ts hts hne
    rw [getElementByUid_unfold_some st eh uid ts hts hne]
    constructor
    · intro hners
      rw [if_pos (Ne.symm hners)]
    · intro heq
      rw [if_neg (fun hh => hh heq.symm)]
      constructor
      · intro hl
        rw [hl]
      · intro node hl
        rw [hl]
        constructor
        · intro hehn
          simp only [hehn]
        · intro e hehe
          simp only [hehe]

/-- Witness for C2: resolving the live uid `1_0` on a captured snapshot
returns the collaborator's handle. -/
theorem getElementByUid_error_cases_witness :
    getElementByUid sampleSnapState (fun _ => some 7) "1_0" = .ok 7 :=
  ((((getElementByUid_error_cases sampleSnapState (fun _ => some 7)
        "1_0").2 sampleSnapshot rfl (List.cons_ne_nil _ _)).2
      (by decide)).2 sampleNode rfl).2 7 rfl

/-- C10: the staleness check compares the uid's text before the first
underscore to the current snapshot id by plain string equality — any
difference (larger number, never-issued id, non-numeric text) yields the
stale-snapshot error, not the not-found error — and a uid containing no
underscore is compared as a bare id. -/
theorem getElementByUid_plain_string_staleness (st : McpState)
    (eh : TextSnapshotNode → Option Nat) (uid : String) (ts : TextSnapshot)
    (hts : st.textSnapshot = some ts) (hne : ts.idToNode ≠ [])
    (hdiff : firstUidComponent uid ≠ ts.snapshotId) :
    getElementByUid st eh uid = .error STALE_SNAPSHOT_ERROR
    ∧ ((∀ c ∈ uid.data, c ≠ '_') → firstUidComponent uid = uid) := by
  constructor
  · rw [getElementByUid_unfold_some st eh uid ts hts hne,
      if_pos (Ne.symm hdiff)]
  · exact firstUidComponent_no_underscore uid

/-- Witness for C10: the underscore-free, never-issued uid `999` is
reported stale, and its bare text is what was compared. -/
theorem getElementByUid_plain_string_staleness_witness :
    getElementByUid sampleSnapState (fun _ => none) "999"
        = .error STALE_SNAPSHOT_ERROR
    ∧ firstUidComponent "999" = "999" :=
  ⟨(getElementByUid_plain_string_staleness sampleSnapState (fun _ => none)
      "999" sampleSnapshot rfl (List.cons_ne_nil _ _) (by decide)).1,
   (getElementByUid_plain_string_staleness sampleSnapState (fun _ => none)
      "999" sampleSnapshot rfl (List.cons_ne_nil _ _) (by decide)).2
     (by decide)⟩

/-! ### Page registry: id assignment -/

theorem lookup_append_singleton_ne {m : List (Nat × Nat)} {k k' v : Nat}
    (h : k ≠ k') : (m ++ [(k', v)]).lookup k = m.lookup k := by
  rw [List.lookup_append]
  have hb : (k == k') = false := beq_eq_false_iff_ne.mpr h
  have h2 : ([(k', v)] : List (Nat × Nat)).lookup k = none := by
    rw [List.lookup_cons, hb]
    rfl
  rw [h2, Option.or_none]

theorem newPageKeys_cons_seen {p : PageInfo} {ps : List PageInfo}
    {m : List (Nat × Nat)} (h : (m.lookup p.key).isSome) :
    newPageKeys (p :: ps) m = newPageKeys ps m := by
  unfold newPageKeys
  have hb : (List.lookup p.key m).isNone = false := by
    cases ho : List.lookup p.key m with
    | none => rw [ho] at h; simp at h
    | some v => rfl
  rw [List.filter_cons_of_neg (by simp [hb])]

theorem newPageKeys_cons_new {p : PageInfo} {ps : List PageInfo}
    {m : List (Nat × Nat)} (h : ¬ (m.lookup p.key).isSome) :
    newPageKeys (p :: ps) m = p.key :: newPageKeys ps m := by
  unfold newPageKeys
  have ho : List.lookup p.key m = none := by
    cases ho2 : List.lookup p.key m with
    | none => rfl
    | some v => rw [ho2] at h; simp at h
  rw [List.filter_cons_of_pos (by simp [ho])]
  rfl

theorem newPageKeys_append_irrelevant {ps : List PageInfo}
    {m : List (Nat × Nat)} {k v : Nat} (h : k ∉ ps.map PageInfo.key) :
    newPageKeys ps (m ++ [(k, v)]) = newPageKeys ps m := by
  unfold newPageKeys
  congr 1
  apply List.filter_congr
  intro q hq
  have hne : q.key ≠ k := by
    intro he
    exact h (he ▸ List.mem_map_of_mem PageInfo.key hq)
  rw [lookup_append_singleton_ne hne]

theorem assignPageIds_spec :
    ∀ (ps : List PageInfo) (m : List (Nat × Nat)) (next : Nat),
      (ps.map PageInfo.key).Nodup →
      assignPageIds ps m next
        = (m ++ (newPageKeys ps m).zip
              (List.range' next (newPageKeys ps m).length),
           next + (newPageKeys ps m).length) := by
  intro ps
  induction ps with
  | nil => intro m next _; simp [assignPageIds, newPageKeys]
  | cons p ps ih =>
    intro m next hnd
    simp only [List.map_cons, List.nodup_cons] at hnd
    unfold assignPageIds
    by_cases hp : (List.lookup p.key m).isSome
    · rw [if_pos hp, ih m next hnd.2, newPageKeys_cons_seen hp]
    · rw [if_neg hp, ih (m ++ [(p.key, next)]) (next + 1) hnd.2,
        newPageKeys_append_irrelevant hnd.1, newPageKeys_cons_new hp]
      simp only [List.length_cons, List.range'_succ, List.zip_cons_cons]
      rw [List.append_assoc]
      have hn : next + 1 + (newPageKeys ps m).length
          = next + ((newPageKeys ps m).length + 1) := by omega
      rw [hn, List.singleton_append]

theorem createPagesSnapshot_cases (st : McpState) (allPages : List PageInfo) :
    createPagesSnapshot st allPages
      = (match (allPages.filter (pageVisible st.options)).head? with
         | some p0 =>
           if !(match st.selected with
                | none => false
                | some k =>
                  (allPages.filter (pageVisible st.options)).any
                    (fun p => p.key = k)) then
             selectPage { st with
               pageIdMap := (assignPageIds allPages st.pageIdMap st.nextPageId).1,
               nextPageId := (assignPageIds allPages st.pageIdMap st.nextPageId).2,
               pages := allPages.filter (pageVisible st.options) } p0.key
           else { st with
             pageIdMap := (assignPageIds allPages st.pageIdMap st.nextPageId).1,
             nextPageId := (assignPageIds allPages st.pageIdMap st.nextPageId).2,
             pages := allPages.filter (pageVisible st.options) }
         | none => { st with
             pageIdMap := (assignPageIds allPages st.pageIdMap st.nextPageId).1,
             nextPageId := (assignPageIds allPages st.pageIdMap st.nextPageId).2,
             pages := allPages.filter (pageVisible st.options) }) := rfl

/-- C3 (amended): refreshing re-enumerates pages, applies the visibility
filter, appends fresh strictly increasing ids from the monotonic counter
for the pages not seen before (in discovery order), keeps the selection
when the selected page is still visible, auto-selects the first visible
page when it is not, and — when no pages are visible — leaves the
selection unchanged (it does not become empty). -/
theorem createPagesSnapshot_refresh (st : McpState) (allPages : List PageInfo)
    (hnd : (allPages.map PageInfo.key).Nodup) :
    (createPagesSnapshot st allPages).pages
        = allPages.filter (pageVisible st.options)
    ∧ (createPagesSnapshot st allPages).pageIdMap
        = st.pageIdMap
            ++ (newPageKeys allPages st.pageIdMap).zip
              (List.range' st.nextPageId
                (newPageKeys allPages st.pageIdMap).length)
    ∧ (createPagesSnapshot st allPages).nextPageId
        = st.nextPageId + (newPageKeys allPages st.pageIdMap).length
    ∧ (∀ k, st.selected = some k →
        (allPages.filter (pageVisible st.options)).any (fun p => p.key = k) →
        (createPagesSnapshot st allPages).selected = some k)
    ∧ (∀ p0, (allPages.filter (pageVisible st.options)).head? = some p0 →
        (match st.selected with
         | none => True
         | some k =>
           (allPages.filter (pageVisible st.options)).any (fun p => p.key = k)
             = false) →
        (createPagesSnapshot st allPages).selected = some p0.key)
    ∧ (allPages.filter (pageVisible st.options) = [] →
        (createPagesSnapshot st allPages).selected = st.selected) := by
  have hspec := assignPageIds_spec allPages st.pageIdMap st.nextPageId hnd
  rw [createPagesSnapshot_cases st allPages, hspec]
  refine ⟨?_, ?_, ?_, ?_, ?_, ?_⟩
  · split <;> first
      | rfl
      | (split <;> simp [selectPage])
  · split <;> first
      | rfl
      | (split <;> simp [selectPage])
  · split <;> first
      | rfl
      | (split <;> simp [selectPage])
  · intro k hk hany
    rw [hk]
    cases hh : (allPages.filter (pageVisible st.options)).head? with
    | none => rfl
    | some p0 => simp [hany]
  · intro p0 hh hmatch
    rw [hh]
    cases hs : st.selected with
    | none => simp [hs, selectPage]
    | some k =>
      have hany : (allPages.filter (pageVisible st.options)).any
          (fun p => p.key = k) = false := by
        rw [hs] at hmatch
        exact hmatch
      simp [hs, hany, selectPage]
  · intro hemp
    rw [hemp]
    rfl

/-- Counterexample for C3: after a refresh that leaves no page visible
(the only enumerated handle now has a `devtools://` URL), the visible
list is empty, yet the selection is not emptied and getSelectedPage
still succeeds — contradicting the claim that the selection becomes
empty and any subsequent access fails. -/
theorem createPagesSnapshot_empty_keeps_selection :
    (createPagesSnapshot sampleState [⟨1, "devtools://extra"⟩]).pages = []
    ∧ (createPagesSnapshot sampleState [⟨1, "devtools://extra"⟩]).selected
        = some 1
    ∧ getSelectedPageKey
        (createPagesSnapshot sampleState [⟨1, "devtools://extra"⟩])
        (fun _ => false) = .ok 1 :=
  ⟨rfl, rfl, rfl⟩

/-- Witness for C3 at a concrete refresh discovering one new page. -/
theorem createPagesSnapshot_refresh_witness :
    (createPagesSnapshot sampleState
        [⟨1, "about:blank"⟩, ⟨2, "https://example.com"⟩]).selected = some 1 :=
  (createPagesSnapshot_refresh sampleState
    [⟨1, "about:blank"⟩, ⟨2, "https://example.com"⟩]
    (by decide)).2.2.2.1 1 rfl (by decide)

/-! ### closePage -/

theorem filter_ne_key_length {l : List PageInfo} {p : PageInfo}
    (hnd : (l.map PageInfo.key).Nodup) (hp : p ∈ l) :
    (l.filter (fun q => q.key != p.key)).length + 1 = l.length := by
  induction l with
  | nil => cases hp
  | cons q t ih =>
    simp only [List.map_cons, List.nodup_cons] at hnd
    by_cases hq : q.key = p.key
    · have hpt : ∀ x ∈ t, (x.key != p.key) = true := by
        intro x hx
        have hxk : x.key ≠ p.key := by
          intro he
          exact hnd.1 (hq ▸ he ▸ List.mem_map_of_mem PageInfo.key hx)
        simpa using hxk
      rw [List.filter_cons_of_neg (by simp [hq])]
      rw [List.filter_eq_self.mpr hpt]
      rfl
    · have hpt : p ∈ t := by
        rcases List.mem_cons.mp hp with he | ht
        · exact absurd (he ▸ rfl) hq
        · exact ht
      rw [List.filter_cons_of_pos (by simpa using hq)]
      have := ih hnd.2 hpt
      simp only [List.length_cons]
      omega

/-- C4: with exactly one visible page, closing any page id fails with the
precondition error and issues no close request; with two or more visible
pages, the page is resolved by id — failing with the not-found error when
no visible page carries the id — and a close request without unload
hooks is issued for it, leaving exactly one fewer visible page. -/
theorem closePage_cases (st : McpState) (pageId : Nat)
    (hnd : (st.pages.map PageInfo.key).Nodup) :
    (st.pages.length = 1 → closePage st pageId = .error CLOSE_PAGE_ERROR)
    ∧ (2 ≤ st.pages.length →
        (st.pages.find? (fun p => st.pageIdMap.lookup p.key = some pageId)
            = none →
          closePage st pageId = .error "No page found")
        ∧ (∀ p,
            st.pages.find? (fun p => st.pageIdMap.lookup p.key = some pageId)
              = some p →
            closePage st pageId = .ok ⟨p.key, false⟩
            ∧ p ∈ st.pages
            ∧ (st.pages.filter (fun q => q.key != p.key)).length + 1
                = st.pages.length)) := by
  constructor
  · intro h1
    unfold closePage
    rw [if_pos h1]
  · intro h2
    have hne1 : ¬ st.pages.length = 1 := by omega
    constructor
    · intro hf
      unfold closePage
      rw [if_neg hne1, hf]
    · intro p hf
      refine ⟨?_, List.mem_of_find?_eq_some hf, ?_⟩
      · unfold closePage
        rw [if_neg hne1, hf]
      · exact filter_ne_key_length hnd (List.mem_of_find?_eq_some hf)

/-- Witness for C4: closing page 2 of a two-page session issues the
no-unload close request for it. -/
theorem closePage_cases_witness :
    closePage twoPageState 2 = .ok ⟨2, false⟩ :=
  (((closePage_cases twoPageState 2 (by decide)).2 (by decide)).2
    ⟨2, "https://example.com"⟩ rfl).1

/-! ### selectPage dialog listeners -/

theorem selectPage_listener_step (st : McpState) (k : Nat)
    (hinv : st.listeners
      = (match st.selected with | some j => [j] | none => [])) :
    (selectPage st k).listeners = [k] ∧ (selectPage st k).selected = some k := by
  unfold selectPage
  cases hsel : st.selected with
  | none =>
    rw [hinv, hsel]
    exact ⟨rfl, rfl⟩
  | some j =>
    rw [hinv, hsel]
    constructor
    · show [j].erase j ++ [k] = [k]
      rw [List.erase_cons_head]
      rfl
    · rfl

theorem foldl_selectPage_inv (ks : List Nat) :
    ∀ st : McpState,
      st.listeners = (match st.selected with | some j => [j] | none => []) →
      (ks.foldl selectPage st).listeners
        = (match (ks.foldl selectPage st).selected with
           | some j => [j]
           | none => []) := by
  induction ks with
  | nil => intro st h; exact h
  | cons k ks ih =>
    intro st h
    have hstep := selectPage_listener_step st k h
    rw [List.foldl_cons]
    apply ih
    rw [hstep.1, hstep.2]

/-- C7: a dialog listener is only ever attached to the selected page:
selecting B after selecting A removes A's listener and attaches B's
(when A and B differ, A no longer carries a listener, and B's is the
only one), and after any sequence of selections at most one page carries
a listener. -/
theorem selectPage_single_listener (st : McpState)
    (hinv : st.listeners
      = (match st.selected with | some j => [j] | none => [])) :
    (∀ a b, (selectPage (selectPage st a) b).listeners = [b]
      ∧ (a ≠ b → a ∉ (selectPage (selectPage st a) b).listeners))
    ∧ (∀ ks : List Nat,
        ((ks.foldl selectPage st).listeners).length ≤ 1) := by
  constructor
  · intro a b
    have h1 := selectPage_listener_step st a hinv
    have h2 := selectPage_listener_step (selectPage st a) b
      (by rw [h1.1, h1.2])
    refine ⟨h2.1, fun hab => ?_⟩
    rw [h2.1]
    simp [hab]
  · intro ks
    have h := foldl_selectPage_inv ks st hinv
    rw [h]
    cases (ks.foldl selectPage st).selected <;> simp

/-- Witness for C7: selecting page 2 then page 3 leaves only page 3's
listener attached. -/
theorem selectPage_single_listener_witness :
    (selectPage (selectPage sampleState 2) 3).listeners = [3]
    ∧ ((([2, 3] : List Nat).foldl selectPage sampleState).listeners).length
        ≤ 1 :=
  ⟨((selectPage_single_listener sampleState rfl).1 2 3).1,
   (selectPage_single_listener sampleState rfl).2 [2, 3]⟩

/-! ### Response assembly -/

/-- C8: the finalized response's text block consists, in order, of the
header line naming the tool, the accumulated lines in append order,
exactly one dialog notice when a dialog is pending (naming its type and
message, plus the default value for prompt dialogs), the pages section
(`id: url`, selected page marked) when pages were requested, and the
snapshot section when a rendered snapshot is present; the returned
content blocks are this text block first, then the attached images in
attachment order. -/
theorem format_composition (toolName : String) (resp : McpResponseState)
    (st : McpState) (fs : Option String) :
    format toolName resp st fs
      = ContentBlock.text
          (String.intercalate "\n" (specSections toolName resp st fs))
        :: resp.images.map (fun i => ContentBlock.image i.data i.mimeType) := by
  unfold format specSections
  cases st.dialog <;> cases resp.includePages <;> cases fs <;>
    simp [List.append_assoc]
  all_goals split <;> simp [List.append_assoc]

/-- C9: when a snapshot was requested with a file path and the capture
leaves a snapshot in place, the rendered snapshot text is written to
that path and the response carries the path-reference line instead of
the inline text; a failing write makes the whole call fail with the
user-facing error wrapping the underlying cause. -/
theorem handle_snapshot_file_path (toolName : String)
    (resp : McpResponseState) (st : McpState) (allPages : List PageInfo)
    (closed : Nat → Bool) (rootNode : Option AXNode)
    (render : TextSnapshotNode → TextSnapshot → String)
    (writeFile : String → String → Except String Unit)
    (params : SnapshotParams) (fp : String) (st2 : McpState)
    (snap : TextSnapshot)
    (hparams : resp.snapshotParams = some params)
    (hfp : params.filePath = some fp)
    (hcap : createTextSnapshot
        (if resp.includePages then createPagesSnapshot st allPages else st)
        closed rootNode (params.verbose.getD false) = .ok st2)
    (hsnap : st2.textSnapshot = some snap) :
    (writeFile fp (render snap.root snap) = .ok () →
      handle toolName resp st allPages closed rootNode render writeFile
        = .ok (format toolName resp st2
            (some ("Saved snapshot to " ++ fp ++ ".")), st2))
    ∧ (∀ e, writeFile fp (render snap.root snap) = .error e →
      handle toolName resp st allPages closed rootNode render writeFile
        = .error ⟨"Could not save a screenshot to a file", some e⟩) := by
  unfold handle saveFile
  simp only [hparams, hcap, hsnap, hfp]
  constructor
  · intro hw
    simp only [hw]
  · intro e hw
    simp only [hw]

/-- Witness for C9: a successful write of the rendered snapshot yields
the path-reference response. -/
theorem handle_snapshot_file_path_witness :
    handle "test" fileResp sampleState [] (fun _ => false) (some sampleRoot)
        (fun _ _ => "R") (fun _ _ => .ok ())
      = .ok (format "test" fileResp sampleCaptured
          (some ("Saved snapshot to " ++ "/tmp/out.txt" ++ ".")),
        sampleCaptured) :=
  (handle_snapshot_file_path "test" fileResp sampleState [] (fun _ => false)
    (some sampleRoot) (fun _ _ => "R") (fun _ _ => .ok ())
    { verbose := some false, filePath := some "/tmp/out.txt" }
    "/tmp/out.txt" sampleCaptured sampleCapturedSnapshot
    rfl rfl rfl rfl).1 rfl

end ChromeReaderMcp
